import Mathlib

/-!
# gitissue: the `github` package (github.go)

A shallow embedding of `GetIssue`, `EditIssue`, `CreateIssue` and `SearchIssues`
together with the helpers they call (`httpRequest`, `verifyResp`, `printResp`).

Modelling choices:

* Go strings are lists of characters (`Str`).
* `net/http` is an environment `Env`: `NewRequest` says whether building a
  request fails, `Do` gives the answer of `client.Do` to a request, which may
  depend on the requests already made.
* `encoding/json` is not re-implemented. A request body is the value whose
  JSON encoding `json.Marshal` produced, or no bytes at all when `json.Marshal`
  failed (the package drops its error); a response body is given by what
  `json.NewDecoder(body).Decode` yields for each of the three target types that
  the package decodes into.
* The package variable `IssuesURL` and the trace of requests sent form the
  state (`World`) that every operation receives and returns.
* A run-time panic (nil pointer dereference) is the outcome `Outcome.panic`.
* Output written with `fmt.Println` is not modelled.
-/

namespace GitIssue

/-- Go `string`, as the list of its characters. -/
abbrev Str := List Char

/-! ## Library functions on strings -/

/-- Go `strings.HasPrefix(s, p)`. -/
def HasPrefix : Str → Str → Bool
  | _, [] => true
  | [], _ :: _ => false
  | c :: s, d :: p => c == d && HasPrefix s p

/-- Go `strings.HasSuffix(s, p)`. -/
def HasSuffix (s p : Str) : Bool :=
  HasPrefix s.reverse p.reverse

/-- Go `strings.Contains(s, substr)`. -/
def Contains : Str → Str → Bool
  | [], substr => substr.isEmpty
  | c :: s, substr => HasPrefix (c :: s) substr || Contains s substr

/-- Go `strings.TrimPrefix(s, p)`. -/
def TrimPrefix (s p : Str) : Str :=
  if HasPrefix s p then s.drop p.length else s

/-- Go `strings.TrimSuffix(s, p)`. -/
def TrimSuffix (s p : Str) : Str :=
  if HasSuffix s p then s.take (s.length - p.length) else s

/-- Go `strings.Split(s, sep)` for a separator of one character (the package
only splits on `";"`). -/
def Split : Str → Char → List Str
  | [], _ => [[]]
  | c :: s, sep =>
    if c = sep then [] :: Split s sep
    else
      match Split s sep with
      | [] => [[c]]
      | x :: xs => (c :: x) :: xs

/-- Go `strings.Join(elems, sep)`. -/
def Join : List Str → Str → Str
  | [], _ => []
  | [a], _ => a
  | a :: b :: rest, sep => a ++ sep ++ Join (b :: rest) sep

/-- The UTF-8 bytes of a character. -/
def utf8 (c : Char) : List Nat :=
  let n := c.toNat
  if n < 0x80 then [n]
  else if n < 0x800 then [0xC0 + n / 64, 0x80 + n % 64]
  else if n < 0x10000 then [0xE0 + n / 4096, 0x80 + n / 64 % 64, 0x80 + n % 64]
  else [0xF0 + n / 262144, 0x80 + n / 4096 % 64, 0x80 + n / 64 % 64, 0x80 + n % 64]

/-- One upper-case hexadecimal digit (`upperhex` of net/url). -/
def upperhex (d : Nat) : Char :=
  "0123456789ABCDEF".toList.getD d '0'

/-- The bytes that `url.QueryEscape` leaves as they are: letters, digits and
`-`, `_`, `.`, `~`. -/
def unreserved (b : Nat) : Bool :=
  (0x61 ≤ b && b ≤ 0x7A) || (0x41 ≤ b && b ≤ 0x5A) || (0x30 ≤ b && b ≤ 0x39) ||
    b == 0x2D || b == 0x5F || b == 0x2E || b == 0x7E

/-- The escape of one byte in `url.QueryEscape`: a space becomes `+`, an
unreserved byte stays, every other byte becomes `%XX`. -/
def escapeByte (b : Nat) : Str :=
  if b = 0x20 then ['+']
  else if unreserved b then [Char.ofNat b]
  else ['%', upperhex (b / 16), upperhex (b % 16)]

/-- Go `url.QueryEscape(s)`. -/
def QueryEscape (s : Str) : Str :=
  (s.flatMap utf8).flatMap escapeByte

/-- Go `fmt.Sprintf("%d", n)`. -/
def itoa (n : Int) : Str :=
  if n < 0 then '-' :: Nat.toDigits 10 n.natAbs else Nat.toDigits 10 n.toNat

/-! ## Data model (github.go, oauth.go) -/

/-- The `User` struct. -/
structure User where
  Login : Str
  HTMLURL : Str
deriving DecidableEq, Repr

/-- The `Assignee` struct. -/
structure Assignee where
  Login : Str
deriving DecidableEq, Repr

/-- Go `time.Time`, by its year and the rest of the instant (nanoseconds into
the year). -/
structure Time where
  Year : Int
  Nanos : Nat
deriving DecidableEq, Repr

/-- The `Issue` struct. -/
structure Issue where
  Number : Int
  HTMLURL : Str
  Title : Str
  State : Str
  User : Option User
  Assignee : Option Assignee
  CreatedAt : Time
  Body : Str
  Label : Str
deriving DecidableEq, Repr

/-- The zero value of `Issue`; the zero `time.Time` is January 1 of year 1. -/
def Issue.zero : Issue :=
  { Number := 0, HTMLURL := [], Title := [], State := [], User := none,
    Assignee := none, CreatedAt := { Year := 1, Nanos := 0 }, Body := [], Label := [] }

/-- The bytes of `data, _ := json.Marshal(&i)`: `some i` stands for the JSON
encoding of `i`; `none` for the nil slice left when `json.Marshal` fails, its
error being dropped. Of the fields of `Issue` only `CreatedAt` can make it
fail: `Time.MarshalJSON` rejects a year outside 0..9999. -/
def Marshal (i : Issue) : Option Issue :=
  if 0 ≤ i.CreatedAt.Year ∧ i.CreatedAt.Year ≤ 9999 then some i else none

/-- The `IssuesSearchResult` struct. -/
structure IssuesSearchResult where
  TotalCount : Int
  Items : List Issue
deriving DecidableEq, Repr

/-- The zero value of `IssuesSearchResult` (`var result IssuesSearchResult`). -/
def IssuesSearchResult.zero : IssuesSearchResult :=
  { TotalCount := 0, Items := [] }

/-- The `UserInfo` struct. -/
structure UserInfo where
  User : Str
  Token : Str
  Repo : Str
deriving DecidableEq, Repr

/-- The `Error` struct of oauth.go. -/
structure Error where
  Resource : Str
  Field : Str
  Code : Str
deriving DecidableEq, Repr

/-- The `ErrorMsg` struct of oauth.go. -/
structure ErrorMsg where
  Message : Str
  Errors : List Error
deriving DecidableEq, Repr

/-- A Go `error` value: one produced by a library call (net/http,
encoding/json), or one built by `fmt.Errorf` in this package. -/
inductive GoError where
  | lib (e : Str)
  | errorf (msg : Str)
deriving DecidableEq, Repr

/-! ## HTTP -/

/-- The body of a response, by what `json.NewDecoder(body).Decode(&v)` does for
each target: `asIssue v` is the result of decoding into an `Issue` that already
holds `v`, `asSearch` the result of decoding into a zero `IssuesSearchResult`,
`asErrorMsg` the `ErrorMsg` left by decoding into a zero one (the decoder's
error is dropped there). -/
structure Body where
  asIssue : Issue → Except Str Issue
  asSearch : Except Str IssuesSearchResult
  asErrorMsg : ErrorMsg

/-- The fields of `http.Response` the package reads. -/
structure Response where
  StatusCode : Int
  Status : Str
  Header : List (Str × List Str)
  Body : Body

/-- The map lookup `resp.Header[key]`: nil when the key is absent. -/
def Response.header (resp : Response) (key : Str) : List Str :=
  match resp.Header.lookup key with
  | some v => v
  | none => []

/-- A request as sent: method, URL, the `Authorization` header and the body:
`some i` for the JSON encoding of `i`, `none` for a body without bytes (a nil
body, or a buffer over the nil slice). -/
structure Request where
  Method : Str
  URL : Str
  Authorization : Str
  Body : Option Issue
deriving DecidableEq, Repr

/-- The net/http library and the remote service. `NewRequest method url` is the
error of `http.NewRequest`, if any; `Do sent req` is the result of `client.Do`
on `req` after the requests `sent` were made. -/
structure Env where
  NewRequest : Str → Str → Option GoError
  Do : List Request → Request → Except GoError Response

/-- The state of the process: the package variable `IssuesURL` and the requests
sent so far, oldest first. -/
structure World where
  IssuesURL : Str
  sent : List Request
deriving DecidableEq, Repr

/-- The initial value of the package variable `IssuesURL`. -/
def IssuesURL : Str := "https://api.github.com/search/issues".toList

/-- The package variable `CreateURL`; no function assigns to it. -/
def CreateURL : Str := "https://api.github.com/".toList

/-- The state of a process that has made no request yet. -/
def World.init : World := { IssuesURL := GitIssue.IssuesURL, sent := [] }

/-- The result of running a function: it returns a value or panics. -/
inductive Outcome (α : Type) where
  | ret (v : α)
  | panic
deriving DecidableEq, Repr

/-- Constant `http.StatusOK`. -/
def StatusOK : Int := 200

/-- Constant `http.StatusCreated`. -/
def StatusCreated : Int := 201

/-! ## The package's functions -/

/-- Function `httpRequest`: `(nil, err)` or `(resp, nil)`. -/
def httpRequest (env : Env) (w : World) (request url token : Str) (b : Option Issue) :
    Except GoError Response × World :=
  match env.NewRequest request url with
  | some err => (.error err, w)
  | none =>
    let req : Request :=
      { Method := request, URL := url, Authorization := "token ".toList ++ token, Body := b }
    match env.Do w.sent req with
    | .error err => (.error err, { w with sent := w.sent ++ [req] })
    | .ok resp => (.ok resp, { w with sent := w.sent ++ [req] })

/-- Function `verifyResp`: nil, or the decoded error message. -/
def verifyResp (resp : Response) (expected : Int) : Option ErrorMsg :=
  if resp.StatusCode ≠ expected then some resp.Body.asErrorMsg else none

/-- Function `printResp`, on a possibly nil response. -/
def printResp (resp : Option Response) : Str :=
  match resp with
  | some r => r.Status
  | none => []

/-- Function `GetIssue`: the pair `(*Issue, error)` it returns. -/
def GetIssue (env : Env) (w : World) (u : UserInfo) (number : Int) :
    (Option Issue × Option GoError) × World :=
  let issue : Issue := { Issue.zero with Number := number }
  let num := itoa number
  let request := "GET".toList
  let url := CreateURL ++ "repos/".toList ++ u.Repo ++ "/issues/".toList ++ num
  match httpRequest env w request url u.Token (Marshal issue) with
  | (.error _, w1) =>
    ((none, some (.errorf (request ++ " failed: ".toList ++ printResp none))), w1)
  | (.ok resp, w1) =>
    match verifyResp resp StatusOK with
    | some _ =>
      ((none, some (.errorf (request ++ " failed: ".toList ++ resp.Status ++ "\n".toList))), w1)
    | none =>
      match resp.Body.asIssue issue with
      | .error err => ((none, some (.lib err)), w1)
      | .ok issue1 => ((some issue1, none), w1)

/-- Function `EditIssue`: the `error` it returns. When the PATCH fails in
transport, `resp` is nil and `resp.Status` panics. The body of the PATCH is
`json.Marshal(&i)` after `i.Title = issue.Title`. -/
def EditIssue (env : Env) (w : World) (u : UserInfo) (i : Issue) :
    Outcome (Option GoError) × World :=
  match GetIssue env w u i.Number with
  | ((_, some _), w1) =>
    (.ret (some (.errorf ("failed to get issue: ".toList ++ itoa i.Number))), w1)
  | ((none, none), w1) => (.panic, w1)
  | ((some issue, none), w1) =>
    let i1 : Issue := { i with Title := issue.Title }
    let num := itoa i1.Number
    let request := "PATCH".toList
    let url := CreateURL ++ "repos/".toList ++ u.Repo ++ "/issues/".toList ++ num
    match httpRequest env w1 request url u.Token (Marshal i1) with
    | (.error _, w2) => (.panic, w2)
    | (.ok resp, w2) =>
      match verifyResp resp StatusOK with
      | some _ =>
        (.ret (some (.errorf (request ++ " failed: ".toList ++ resp.Status ++ "\n".toList))), w2)
      | none => (.ret none, w2)

/-- Function `CreateIssue`: the pair `([]string, error)` it returns. When the
POST fails in transport, `resp` is nil and `resp.Status` panics. -/
def CreateIssue (env : Env) (w : World) (u : UserInfo) (i : Issue) :
    Outcome (List Str × Option GoError) × World :=
  let result : List Str := []
  let request := "POST".toList
  let url := CreateURL ++ "repos/".toList ++ u.Repo ++ "/issues".toList
  match httpRequest env w request url u.Token (Marshal i) with
  | (.error _, w1) => (.panic, w1)
  | (.ok resp, w1) =>
    match verifyResp resp StatusCreated with
    | some _ =>
      (.ret (result, some (.errorf (request ++ " failed: ".toList ++ resp.Status ++ "\n".toList))),
        w1)
    | none =>
      let issueURL := resp.header "Location".toList
      (.ret (issueURL, none), w1)

/-- The query of `SearchIssues` (lines 198-203): two terms joined by a space. -/
def searchQuery (u : UserInfo) (filter : Str) : Str :=
  let terms0 : Str := "repo:".toList ++ u.Repo
  let terms1 : Str := if filter ≠ [] then "is:".toList ++ filter else []
  Join [terms0, terms1] " ".toList

/-- The value `SearchIssues` assigns to `IssuesURL` after a page (lines
224-232), from `link := resp.Header["Link"]`. -/
def nextIssuesURL (link : List Str) : Str :=
  match link with
  | [] => []
  | link0 :: _ =>
    if Contains link0 "next".toList then
      match Split link0 ';' with
      | [] => []
      | s0 :: _ => TrimSuffix (TrimPrefix s0 "<".toList) ">".toList
    else []

/-- The loop of `SearchIssues` (lines 211-242), run for at most `fuel` pages;
`none` when the loop has not ended by then. `http.NewRequest`'s error is
dropped by the source, so a failed `NewRequest` leaves `req` nil and
`req.Header.Set` panics. -/
def searchLoop (env : Env) (token : Str) :
    Nat → World → IssuesSearchResult →
      Option (Outcome (Option IssuesSearchResult × Option GoError) × World)
  | 0, w, result =>
    if w.IssuesURL = [] then some (.ret (some result, none), w) else none
  | fuel + 1, w, result =>
    if w.IssuesURL = [] then some (.ret (some result, none), w)
    else
      match env.NewRequest "GET".toList w.IssuesURL with
      | some _ => some (.panic, w)
      | none =>
        let req : Request :=
          { Method := "GET".toList, URL := w.IssuesURL,
            Authorization := "token ".toList ++ token, Body := none }
        let w1 : World := { w with sent := w.sent ++ [req] }
        match env.Do w.sent req with
        | .error err => some (.ret (none, some err), w1)
        | .ok resp =>
          match verifyResp resp StatusOK with
          | some _ =>
            some (.ret (some result,
              some (.errorf ("search query failed: ".toList ++ resp.Status))), w1)
          | none =>
            let w2 : World := { w1 with IssuesURL := nextIssuesURL (resp.header "Link".toList) }
            match resp.Body.asSearch with
            | .error err => some (.ret (none, some (.lib err)), w2)
            | .ok tempResult =>
              searchLoop env token fuel w2
                { TotalCount := tempResult.TotalCount,
                  Items := result.Items ++ tempResult.Items }

/-- Function `SearchIssues`: the pair `(*IssuesSearchResult, error)` it returns,
with the loop bounded by `fuel` pages. -/
def SearchIssues (env : Env) (fuel : Nat) (w : World) (u : UserInfo) (filter : Str) :
    Option (Outcome (Option IssuesSearchResult × Option GoError) × World) :=
  let q := QueryEscape (searchQuery u filter)
  let w0 : World := { w with IssuesURL := w.IssuesURL ++ "?q=".toList ++ q ++ "&page=1".toList }
  searchLoop env u.Token fuel w0 IssuesSearchResult.zero

/-! ## Concrete services used in the examples -/

/-- An issue with a number and a title, its other fields zero. -/
def mkIssue (n : Int) (title : String) : Issue :=
  { Issue.zero with Number := n, Title := title.toList }

/-- A body that is the JSON of a search result. -/
def searchBody (tc : Int) (items : List Issue) : Body :=
  { asIssue := fun v => .ok v
    asSearch := .ok ⟨tc, items⟩
    asErrorMsg := ⟨[], []⟩ }

/-- A body that is the JSON of an API error message. -/
def errorBody (msg : String) : Body :=
  { asIssue := fun v => .ok v
    asSearch := .ok IssuesSearchResult.zero
    asErrorMsg := ⟨msg.toList, []⟩ }

/-- A body that is the JSON of an issue: every field is set from it. -/
def issueBody (i : Issue) : Body :=
  { asIssue := fun _ => .ok i
    asSearch := .ok IssuesSearchResult.zero
    asErrorMsg := ⟨[], []⟩ }

/-- A service that answers the requests in order with the given responses,
whatever the request, and fails in transport once they are used up. -/
def inOrder (pages : List Response) : Env :=
  { NewRequest := fun _ _ => none
    Do := fun sent _ =>
      match pages.get? sent.length with
      | some p => .ok p
      | none => .error (.lib "connection refused".toList) }

/-- The credentials of the examples: repository `o/r`. -/
def demoUser : UserInfo :=
  { User := "octo".toList, Token := "t0k3n".toList, Repo := "o/r".toList }

/-- First page of two: two items, total count 7, a next link. -/
def pageA : Response :=
  { StatusCode := 200, Status := "200 OK".toList
    Header := [("Link".toList,
      ["<https://api.github.com/search/issues?q=repo%3Ao%2Fr+is%3Aopen&page=2>; rel=\"next\", <https://api.github.com/search/issues?q=repo%3Ao%2Fr+is%3Aopen&page=2>; rel=\"last\"".toList])]
    Body := searchBody 7 [mkIssue 1 "a", mkIssue 2 "b"] }

/-- Second page of two: two items, total count 9, no next link. -/
def pageB : Response :=
  { StatusCode := 200, Status := "200 OK".toList
    Header := [("Link".toList,
      ["<https://api.github.com/search/issues?q=repo%3Ao%2Fr+is%3Aopen&page=1>; rel=\"prev\", <https://api.github.com/search/issues?q=repo%3Ao%2Fr+is%3Aopen&page=1>; rel=\"first\"".toList])]
    Body := searchBody 9 [mkIssue 3 "c", mkIssue 4 "d"] }

/-- A page that answers 500 with an API error message. -/
def pageFail : Response :=
  { StatusCode := 500, Status := "500 Internal Server Error".toList
    Header := []
    Body := errorBody "Server Error" }

/-- The remote issue of the example: number 7, title "Bug A", open. -/
def remoteIssue : Issue :=
  { mkIssue 7 "Bug A" with State := "open".toList }

/-- A 200 response whose body is the JSON of `remoteIssue`. -/
def issueResp : Response :=
  { StatusCode := 200, Status := "200 OK".toList, Header := [], Body := issueBody remoteIssue }

/-- A 404 response whose body nevertheless decodes as an issue. -/
def notFoundResp : Response :=
  { StatusCode := 404, Status := "404 Not Found".toList, Header := [],
    Body := issueBody remoteIssue }

/-- A 201 response without a `Location` header. -/
def createdNoLocation : Response :=
  { StatusCode := 201, Status := "201 Created".toList, Header := [],
    Body := issueBody remoteIssue }

/-- A service on which every `client.Do` fails in transport with the error `e`. -/
def unreachable (e : GoError) : Env :=
  { NewRequest := fun _ _ => none
    Do := fun _ _ => .error e }

/-- URL of page `n` of the search for `repo:o/r is:open`. -/
def pageURL (n : String) : Str :=
  "https://api.github.com/search/issues?q=repo%3Ao%2Fr+is%3Aopen&page=".toList ++ n.toList

/-- Page 1 of 3 as GitHub sends it: next, last. -/
def page1of3 : Response :=
  { StatusCode := 200, Status := "200 OK".toList
    Header := [("Link".toList,
      ["<".toList ++ pageURL "2" ++ ">; rel=\"next\", <".toList ++ pageURL "3"
        ++ ">; rel=\"last\"".toList])]
    Body := searchBody 5 [mkIssue 1 "a", mkIssue 2 "b"] }

/-- Page 2 of 3 as GitHub sends it: prev, next, last, first. -/
def page2of3 : Response :=
  { StatusCode := 200, Status := "200 OK".toList
    Header := [("Link".toList,
      ["<".toList ++ pageURL "1" ++ ">; rel=\"prev\", <".toList ++ pageURL "3"
        ++ ">; rel=\"next\", <".toList ++ pageURL "3" ++ ">; rel=\"last\", <".toList
        ++ pageURL "1" ++ ">; rel=\"first\"".toList])]
    Body := searchBody 5 [mkIssue 3 "c", mkIssue 4 "d"] }

/-- Page 3 of 3 as GitHub sends it: prev, first. -/
def page3of3 : Response :=
  { StatusCode := 200, Status := "200 OK".toList
    Header := [("Link".toList,
      ["<".toList ++ pageURL "2" ++ ">; rel=\"prev\", <".toList ++ pageURL "1"
        ++ ">; rel=\"first\"".toList])]
    Body := searchBody 5 [mkIssue 5 "e"] }

/-- A service that answers by URL, the same way at every call: the three pages
of the search at their URLs, a transport failure for any other URL. -/
def threePages : Env :=
  { NewRequest := fun _ _ => none
    Do := fun _ req =>
      if req.URL = pageURL "1" then .ok page1of3
      else if req.URL = pageURL "2" then .ok page2of3
      else if req.URL = pageURL "3" then .ok page3of3
      else .error (.lib "unsupported protocol scheme".toList) }

/-- A service that answers by URL, the same way at every call: the search has
the single page `pageB`. -/
def onePage : Env :=
  { NewRequest := fun _ _ => none
    Do := fun _ req =>
      if req.URL = pageURL "1" then .ok pageB
      else .error (.lib "unsupported protocol scheme".toList) }

/-- The GET request of the search loop for a URL, with the token of `demoUser`. -/
def searchReq (url : Str) : Request :=
  { Method := "GET".toList, URL := url, Authorization := "token ".toList ++ demoUser.Token,
    Body := none }

/-- A service that answers by URL, the same way at every call: the search has
the two pages `pageA` (total count 7) and `pageB` (total count 9). -/
def twoPages : Env :=
  { NewRequest := fun _ _ => none
    Do := fun _ req =>
      if req.URL = pageURL "1" then .ok pageA
      else if req.URL = pageURL "2" then .ok pageB
      else .error (.lib "unsupported protocol scheme".toList) }

/-- An edit request for issue 7 whose `CreatedAt` is in year 10000. -/
def farIssue : Issue :=
  { Issue.zero with Number := 7, State := "closed".toList,
                    CreatedAt := { Year := 10000, Nanos := 0 } }

/-- Credentials for the repository `vercel/next.js`. -/
def nextUser : UserInfo :=
  { User := "octo".toList, Token := "t0k3n".toList, Repo := "vercel/next.js".toList }

/-- URL of page `n` of the search for `repo:vercel/next.js is:open`. -/
def nextURL (n : String) : Str :=
  "https://api.github.com/search/issues?q=repo%3Avercel%2Fnext.js+is%3Aopen&page=".toList
    ++ n.toList

/-- Page 1 of 2 of the search in `vercel/next.js`: next, last. -/
def nextPage1 : Response :=
  { StatusCode := 200, Status := "200 OK".toList
    Header := [("Link".toList,
      ["<".toList ++ nextURL "2" ++ ">; rel=\"next\", <".toList ++ nextURL "2"
        ++ ">; rel=\"last\"".toList])]
    Body := searchBody 4 [mkIssue 1 "a", mkIssue 2 "b"] }

/-- Page 2 of 2 of the search in `vercel/next.js`: prev, first; no next
relation. -/
def nextPage2 : Response :=
  { StatusCode := 200, Status := "200 OK".toList
    Header := [("Link".toList,
      ["<".toList ++ nextURL "1" ++ ">; rel=\"prev\", <".toList ++ nextURL "1"
        ++ ">; rel=\"first\"".toList])]
    Body := searchBody 4 [mkIssue 3 "c", mkIssue 4 "d"] }

/-- A service that answers by URL, the same way at every call: the two pages of
the search in `vercel/next.js`. -/
def nextByURL : Env :=
  { NewRequest := fun _ _ => none
    Do := fun _ req =>
      if req.URL = nextURL "1" then .ok nextPage1
      else if req.URL = nextURL "2" then .ok nextPage2
      else .error (.lib "unsupported protocol scheme".toList) }

/-! ## Lemmas on `json.Marshal` -/

/-- An issue whose `CreatedAt` has a year in 0..9999 is encoded. -/
theorem Marshal_of_year (i : Issue)
    (h : 0 ≤ i.CreatedAt.Year ∧ i.CreatedAt.Year ≤ 9999) : Marshal i = some i := by
  simp [Marshal, h]

/-- The request body of `GetIssue`, a zero issue with a number, is encoded. -/
theorem Marshal_zero_number (number : Int) :
    Marshal { Issue.zero with Number := number } = some { Issue.zero with Number := number } := by
  simp [Marshal, Issue.zero]

/-! ## Lemmas on the Link header -/

/-- A string has itself as a prefix of any extension. -/
theorem HasPrefix_append (p r : Str) : HasPrefix (p ++ r) p = true := by
  induction p with
  | nil => cases r <;> rfl
  | cons c p ih => simp [HasPrefix, ih]

/-- A string that starts with `sub` contains it. -/
theorem Contains_of_HasPrefix (t sub : Str) (h : HasPrefix t sub = true) :
    Contains t sub = true := by
  cases t with
  | nil =>
    cases sub with
    | nil => rfl
    | cons d sub => simp [HasPrefix] at h
  | cons c t => simp [Contains, h]

/-- What a suffix contains, the whole string contains. -/
theorem Contains_append_left (a b sub : Str) (h : Contains b sub = true) :
    Contains (a ++ b) sub = true := by
  induction a with
  | nil => simpa using h
  | cons c a ih => simp [Contains, ih]

/-- The first piece of a split is what stands before the first separator. -/
theorem Split_first (sep : Char) (t : Str) :
    ∀ s : Str, sep ∉ s → Split (s ++ sep :: t) sep = s :: Split t sep := by
  intro s
  induction s with
  | nil => intro _; simp [Split]
  | cons c s ih =>
    intro h
    have hc : c ≠ sep := fun hcs => h (by simp [hcs])
    have hs : sep ∉ s := fun hm => h (List.mem_cons_of_mem c hm)
    simp [Split, hc, ih hs]

/-- When the first entry of the Link header is `<U>;...` with no `;` in `U`, and
the letters `next` occur after it, the loop takes `U` as the next URL. -/
theorem nextIssuesURL_first_entry (U tail : Str) (more : List Str)
    (hU : ';' ∉ U) (htail : Contains tail "next".toList = true) :
    nextIssuesURL (('<' :: U ++ '>' :: ';' :: tail) :: more) = U := by
  have hcont : Contains ('<' :: U ++ '>' :: ';' :: tail) "next".toList = true := by
    have h := Contains_append_left ('<' :: U ++ ['>', ';']) tail "next".toList htail
    simpa using h
  have hsplit : Split ('<' :: U ++ '>' :: ';' :: tail) ';'
      = ('<' :: U ++ ['>']) :: Split tail ';' := by
    have h := Split_first ';' tail ('<' :: U ++ ['>']) (by
      intro hm
      simp at hm
      exact hU hm)
    simpa using h
  have htrim : TrimSuffix (TrimPrefix ('<' :: U ++ ['>']) "<".toList) ">".toList = U := by
    have h1 : TrimPrefix ('<' :: U ++ ['>']) "<".toList = U ++ ['>'] := by
      simp [TrimPrefix, HasPrefix]
    rw [h1]
    have h2 : HasSuffix (U ++ ['>']) ">".toList = true := by
      simp [HasSuffix, HasPrefix]
    rw [TrimSuffix, if_pos h2]
    simp
  simp only [nextIssuesURL, hcont, hsplit, htrim, if_true]

/-- Without a Link header, or when its first value does not contain the
letters `next`, the loop takes no next URL. -/
theorem nextIssuesURL_none (link0 : Str) (more : List Str)
    (h : Contains link0 "next".toList = false) :
    nextIssuesURL [] = [] ∧ nextIssuesURL (link0 :: more) = [] := by
  simp only [nextIssuesURL, h]
  simp

/-! ## Lemmas on the search loop -/

/-- Once `IssuesURL` is empty the loop ends and returns the accumulated result. -/
theorem searchLoop_done (env : Env) (token : Str) (fuel : Nat) (w : World)
    (acc : IssuesSearchResult) (h : w.IssuesURL = []) :
    searchLoop env token fuel w acc = some (.ret (some acc, none), w) := by
  cases fuel <;> simp [searchLoop, h]

/-- One turn of the loop on a page with status 200 whose body decodes. -/
theorem searchLoop_step (env : Env) (token : Str) (fuel : Nat) (w : World)
    (acc : IssuesSearchResult) (resp : Response) (t : IssuesSearchResult)
    (hurl : w.IssuesURL ≠ [])
    (hnew : env.NewRequest "GET".toList w.IssuesURL = none)
    (hdo : ∀ req, env.Do w.sent req = .ok resp)
    (hst : resp.StatusCode = StatusOK)
    (hbody : resp.Body.asSearch = .ok t) :
    searchLoop env token (fuel + 1) w acc =
      searchLoop env token fuel
        { IssuesURL := nextIssuesURL (resp.header "Link".toList),
          sent := w.sent ++ [{ Method := "GET".toList, URL := w.IssuesURL,
                               Authorization := "token ".toList ++ token, Body := none }] }
        { TotalCount := t.TotalCount, Items := acc.Items ++ t.Items } := by
  simp at hnew
  simp [searchLoop, hurl, hnew, hdo, verifyResp, hst, hbody]

/-- One turn of the loop on a page whose status is not 200: the loop returns
the error together with the result accumulated so far. -/
theorem searchLoop_status_failure (env : Env) (token : Str) (fuel : Nat) (w : World)
    (acc : IssuesSearchResult) (resp : Response)
    (hurl : w.IssuesURL ≠ [])
    (hnew : env.NewRequest "GET".toList w.IssuesURL = none)
    (hdo : ∀ req, env.Do w.sent req = .ok resp)
    (hst : resp.StatusCode ≠ StatusOK) :
    searchLoop env token (fuel + 1) w acc =
      some (.ret (some acc, some (.errorf ("search query failed: ".toList ++ resp.Status))),
        { w with sent := w.sent ++ [{ Method := "GET".toList, URL := w.IssuesURL,
                                      Authorization := "token ".toList ++ token,
                                      Body := none }] }) := by
  simp at hnew
  simp [searchLoop, hurl, hnew, hdo, verifyResp, hst]

/-- The loop over `m + 1` pages that all answer 200, the last one alone without
a next URL: it returns the items of all pages after the ones accumulated, and
the total count of the last page. -/
theorem searchLoop_pages (env : Env) (token : Str) :
    ∀ (m : Nat) (page : Nat → Response) (tc : Nat → Int) (P : Nat → List Issue)
      (w : World) (acc : IssuesSearchResult) (fuel : Nat),
      w.IssuesURL ≠ [] →
      env.NewRequest "GET".toList w.IssuesURL = none →
      (∀ i, i ≤ m → ∀ sent req, sent.length = w.sent.length + i →
          env.Do sent req = .ok (page i)) →
      (∀ i, i ≤ m → (page i).StatusCode = StatusOK) →
      (∀ i, i ≤ m → (page i).Body.asSearch = .ok ⟨tc i, P i⟩) →
      (∀ i, i < m → nextIssuesURL ((page i).header "Link".toList) ≠ [] ∧
          env.NewRequest "GET".toList (nextIssuesURL ((page i).header "Link".toList)) = none) →
      nextIssuesURL ((page m).header "Link".toList) = [] →
      m + 1 ≤ fuel →
      ∃ w', searchLoop env token fuel w acc =
          some (.ret (some ⟨tc m, acc.Items ++ (List.range (m + 1)).flatMap P⟩, none), w') ∧
        w'.IssuesURL = [] ∧ w'.sent.length = w.sent.length + (m + 1) := by
  intro m
  induction m with
  | zero =>
    intro page tc P w acc fuel hurl hnew hdo hst hbody _ hlast hfuel
    obtain ⟨f, rfl⟩ : ∃ f, fuel = f + 1 := ⟨fuel - 1, by omega⟩
    rw [searchLoop_step env token f w acc (page 0) ⟨tc 0, P 0⟩ hurl hnew
      (fun req => hdo 0 (le_refl 0) w.sent req rfl) (hst 0 (le_refl 0)) (hbody 0 (le_refl 0))]
    rw [searchLoop_done env token f _ _ hlast]
    exact ⟨{ IssuesURL := nextIssuesURL ((page 0).header "Link".toList),
             sent := w.sent ++ [{ Method := "GET".toList, URL := w.IssuesURL,
                                  Authorization := "token ".toList ++ token, Body := none }] },
      by simp [List.range_succ], hlast, by simp⟩
  | succ m ih =>
    intro page tc P w acc fuel hurl hnew hdo hst hbody hnext hlast hfuel
    obtain ⟨f, rfl⟩ : ∃ f, fuel = f + 1 := ⟨fuel - 1, by omega⟩
    rw [searchLoop_step env token f w acc (page 0) ⟨tc 0, P 0⟩ hurl hnew
      (fun req => hdo 0 (Nat.zero_le _) w.sent req rfl) (hst 0 (Nat.zero_le _))
      (hbody 0 (Nat.zero_le _))]
    obtain ⟨hne, hacc⟩ := hnext 0 (Nat.succ_pos m)
    obtain ⟨w', hrun, hw', hlen⟩ := ih (fun i => page (i + 1)) (fun i => tc (i + 1))
      (fun i => P (i + 1))
      { IssuesURL := nextIssuesURL ((page 0).header "Link".toList),
        sent := w.sent ++ [{ Method := "GET".toList, URL := w.IssuesURL,
                             Authorization := "token ".toList ++ token, Body := none }] }
      { TotalCount := tc 0, Items := acc.Items ++ P 0 } f hne hacc
      (fun i hi sent req hs => hdo (i + 1) (by omega) sent req (by simp at hs; omega))
      (fun i hi => hst (i + 1) (by omega))
      (fun i hi => hbody (i + 1) (by omega))
      (fun i hi => hnext (i + 1) (by omega))
      hlast (by omega)
    refine ⟨w', ?_, hw', ?_⟩
    · rw [hrun]
      have hr : (List.range (m + 1 + 1)).flatMap P
          = P 0 ++ (List.range (m + 1)).flatMap (fun i => P (i + 1)) := by
        rw [List.range_succ_eq_map (m + 1)]
        simp [List.flatMap_map, Function.comp_def]
      simp [hr]
    · simp at hlen
      omega

/-- A run of the loop that ends without error either made no request, or its
result carries the total count decoded from the answer to the last request it
sent. -/
theorem searchLoop_success_last (env : Env) (token : Str) :
    ∀ (fuel : Nat) (w : World) (acc r : IssuesSearchResult) (w' : World),
      searchLoop env token fuel w acc = some (.ret (some r, none), w') →
      (w.IssuesURL = [] ∧ r = acc ∧ w' = w) ∨
      ∃ pre req resp t, w'.sent = pre ++ [req] ∧ env.Do pre req = .ok resp ∧
        resp.StatusCode = 200 ∧ resp.Body.asSearch = .ok t ∧ r.TotalCount = t.TotalCount := by
  intro fuel
  induction fuel with
  | zero =>
    intro w acc r w' h
    by_cases hurl : w.IssuesURL = []
    · simp [searchLoop, hurl] at h
      exact Or.inl ⟨hurl, h.1.symm, h.2.symm⟩
    · simp [searchLoop, hurl] at h
  | succ f ih =>
    intro w acc r w' h
    by_cases hurl : w.IssuesURL = []
    · simp [searchLoop, hurl] at h
      exact Or.inl ⟨hurl, h.1.symm, h.2.symm⟩
    · right
      rw [searchLoop] at h
      simp only [hurl, if_false] at h
      split at h
      · simp at h
      · split at h
        · simp at h
        · rename_i resp hdo
          split at h
          · simp at h
          · rename_i hv
            have hst : resp.StatusCode = 200 := by
              simpa [verifyResp, StatusOK] using hv
            split at h
            · simp at h
            · rename_i t hbody
              rcases ih _ _ _ _ h with ⟨-, hr, hw⟩ | hrest
              · exact ⟨w.sent, _, resp, t, by rw [hw], hdo, hst, hbody, by rw [hr]⟩
              · exact hrest

/-- The items of `N` pages of `k` items each number `N * k`. -/
theorem length_flatMap_range (P : Nat → List Issue) (k : Nat) :
    ∀ N : Nat, (∀ i, i < N → (P i).length = k) →
      ((List.range N).flatMap P).length = N * k := by
  intro N
  induction N with
  | zero => intro _; simp
  | succ n ih =>
    intro h
    rw [List.range_succ, List.flatMap_append, List.length_append,
      ih (fun i hi => h i (Nat.lt_succ_of_lt hi))]
    simp [h n (Nat.lt_succ_self n), Nat.succ_mul]

/-- The run of `SearchIssues` against `N ≥ 1` pages that all answer 200, the
last one alone without a next URL. -/
theorem SearchIssues_pages (env : Env) (u : UserInfo) (filter : Str) (w : World)
    (N : Nat) (page : Nat → Response) (tc : Nat → Int) (P : Nat → List Issue) (fuel : Nat)
    (hN : 1 ≤ N)
    (hfirst : env.NewRequest "GET".toList
      (w.IssuesURL ++ "?q=".toList ++ QueryEscape (searchQuery u filter) ++ "&page=1".toList)
        = none)
    (hserve : ∀ i, i < N → ∀ sent req, sent.length = w.sent.length + i →
      env.Do sent req = .ok (page i))
    (hstatus : ∀ i, i < N → (page i).StatusCode = 200)
    (hbody : ∀ i, i < N → (page i).Body.asSearch = .ok ⟨tc i, P i⟩)
    (hnext : ∀ i, i + 1 < N → nextIssuesURL ((page i).header "Link".toList) ≠ [] ∧
      env.NewRequest "GET".toList (nextIssuesURL ((page i).header "Link".toList)) = none)
    (hlast : nextIssuesURL ((page (N - 1)).header "Link".toList) = [])
    (hfuel : N ≤ fuel) :
    ∃ w', SearchIssues env fuel w u filter =
      some (.ret (some ⟨tc (N - 1), (List.range N).flatMap P⟩, none), w') := by
  obtain ⟨m, rfl⟩ : ∃ m, N = m + 1 := ⟨N - 1, by omega⟩
  have hne : w.IssuesURL ++ "?q=".toList ++ QueryEscape (searchQuery u filter)
      ++ "&page=1".toList ≠ [] := by simp
  obtain ⟨w', hrun, -, -⟩ := searchLoop_pages env u.Token m page tc P
    { w with IssuesURL := w.IssuesURL ++ "?q=".toList ++ QueryEscape (searchQuery u filter)
        ++ "&page=1".toList }
    IssuesSearchResult.zero fuel hne hfirst
    (fun i hi sent req hs => hserve i (by omega) sent req hs)
    (fun i hi => hstatus i (by omega))
    (fun i hi => hbody i (by omega))
    (fun i hi => hnext i (by omega))
    hlast hfuel
  refine ⟨w', ?_⟩
  simp only [SearchIssues]
  rw [hrun]
  simp [IssuesSearchResult.zero]

/-- On `nextByURL` the loop moves from page 1 to page 2. -/
theorem nextByURL_step1 (token : Str) (fuel : Nat) (sent : List Request)
    (acc : IssuesSearchResult) :
    searchLoop nextByURL token (fuel + 1) ⟨nextURL "1", sent⟩ acc =
      searchLoop nextByURL token fuel
        ⟨nextURL "2", sent ++ [⟨"GET".toList, nextURL "1", "token ".toList ++ token, none⟩]⟩
        ⟨4, acc.Items ++ [mkIssue 1 "a", mkIssue 2 "b"]⟩ := by
  rfl

/-- On `nextByURL` the loop moves from page 2, the last one, back to page 1. -/
theorem nextByURL_step2 (token : Str) (fuel : Nat) (sent : List Request)
    (acc : IssuesSearchResult) :
    searchLoop nextByURL token (fuel + 1) ⟨nextURL "2", sent⟩ acc =
      searchLoop nextByURL token fuel
        ⟨nextURL "1", sent ++ [⟨"GET".toList, nextURL "2", "token ".toList ++ token, none⟩]⟩
        ⟨4, acc.Items ++ [mkIssue 3 "c", mkIssue 4 "d"]⟩ := by
  rfl

/-- On `nextByURL` the loop never ends, whatever the fuel. -/
theorem nextByURL_loops (token : Str) :
    ∀ (fuel : Nat) (sent : List Request) (acc : IssuesSearchResult),
      searchLoop nextByURL token fuel ⟨nextURL "1", sent⟩ acc = none ∧
      searchLoop nextByURL token fuel ⟨nextURL "2", sent⟩ acc = none := by
  intro fuel
  induction fuel with
  | zero => intro sent acc; exact ⟨rfl, rfl⟩
  | succ f ih =>
    intro sent acc
    rw [nextByURL_step1, nextByURL_step2]
    exact ⟨(ih _ _).2, (ih _ _).1⟩

/-! ## The claims -/

/-- C1, the code at the failing input: the search in the repository
`vercel/next.js` has two pages; page 1 carries a next link, page 2 (the last)
carries only `prev` and `first`, and both answer 200 with two items. The loop
finds the letters `next` in the last page's header (inside the URL) and takes
page 1's URL from it. Served in order, `SearchIssues` sends a third request and
returns that request's transport error and no result, for any fuel of three
pages or more; served by URL, it never returns, whatever the fuel. In neither
case does it return the four items. -/
theorem SearchIssues_next_js_two_pages :
    Contains ((nextPage2.header "Link".toList).headD []) "rel=\"next\"".toList = false ∧
    nextIssuesURL (nextPage2.header "Link".toList) = nextURL "1" ∧
    (∀ fuel, ∃ w',
      SearchIssues (inOrder [nextPage1, nextPage2]) (fuel + 3) World.init nextUser "open".toList
        = some (.ret (none, some (.lib "connection refused".toList)), w') ∧
      w'.sent.map (fun r => r.URL) = [nextURL "1", nextURL "2", nextURL "1"]) ∧
    (∀ fuel, SearchIssues nextByURL fuel World.init nextUser "open".toList = none) :=
  ⟨by decide, by decide, fun _ => ⟨_, rfl, by decide⟩,
    fun fuel => (nextByURL_loops nextUser.Token fuel [] _).1⟩

/-- C2, the code at the failing input: page 1 answers 200 with two items and a
next link, page 2 answers 500. `SearchIssues` returns an error together with a
non-nil result that still holds the two items of page 1. -/
theorem SearchIssues_failure_keeps_items :
    ∃ w', SearchIssues (inOrder [pageA, pageFail]) 2 World.init demoUser "open".toList =
      some (.ret (some ⟨7, [mkIssue 1 "a", mkIssue 2 "b"]⟩,
        some (.errorf "search query failed: 500 Internal Server Error".toList)), w') :=
  ⟨_, rfl⟩

/-- C3 as stated fails: the first page reports total count 7, the second and
last page reports 9, and the result of `SearchIssues` has `TotalCount` 9. -/
theorem SearchIssues_total_count_not_first :
    pageA.Body.asSearch = .ok ⟨7, [mkIssue 1 "a", mkIssue 2 "b"]⟩ ∧
    ∃ r w', SearchIssues (inOrder [pageA, pageB]) 2 World.init demoUser "open".toList
        = some (.ret (some r, none), w') ∧
      r.TotalCount = 9 ∧ r.TotalCount ≠ 7 :=
  ⟨rfl, _, _, rfl, rfl, by decide⟩

/-- C3, amended: for every search that `SearchIssues` ends without error, on
any service and for any number of pages, the `TotalCount` of the result is the
total count decoded from the answer to the last request sent, that is, the one
reported by the last page. -/
theorem SearchIssues_total_count_last (env : Env) (fuel : Nat) (w w' : World) (u : UserInfo)
    (filter : Str) (r : IssuesSearchResult)
    (hrun : SearchIssues env fuel w u filter = some (.ret (some r, none), w')) :
    ∃ pre req resp t, w'.sent = pre ++ [req] ∧ env.Do pre req = .ok resp ∧
      resp.StatusCode = 200 ∧ resp.Body.asSearch = .ok t ∧ r.TotalCount = t.TotalCount := by
  rcases searchLoop_success_last env u.Token fuel _ _ r w' hrun with ⟨hurl, -, -⟩ | h
  · simp at hurl
  · exact h

/-- Witness of the amended C3: against the two pages served by URL, reporting 7
and then 9, the search ends without error with total count 9, the one decoded
from the answer to the second and last request. -/
theorem SearchIssues_total_count_last_witness :
    ∃ pre req resp t,
      [searchReq (pageURL "1"), searchReq (pageURL "2")] = pre ++ [req] ∧
      twoPages.Do pre req = .ok resp ∧
      resp.StatusCode = 200 ∧ resp.Body.asSearch = .ok t ∧ (9 : Int) = t.TotalCount :=
  SearchIssues_total_count_last twoPages 2 World.init
    ⟨[], [searchReq (pageURL "1"), searchReq (pageURL "2")]⟩ demoUser "open".toList
    ⟨9, [mkIssue 1 "a", mkIssue 2 "b", mkIssue 3 "c", mkIssue 4 "d"]⟩ rfl

/-- C4 as stated fails: for an edit request whose `CreatedAt` is in year 10000
`json.Marshal` fails, its error is dropped, and the PATCH that `EditIssue` sends
after fetching the remote issue "Bug A" has a body without bytes, not the JSON
encoding of an issue. -/
theorem EditIssue_patch_body_empty :
    (GetIssue (inOrder [issueResp, issueResp]) World.init demoUser farIssue.Number).1
      = (some remoteIssue, none) ∧
    ∃ req,
      (EditIssue (inOrder [issueResp, issueResp]) World.init demoUser farIssue).2.sent
        = (GetIssue (inOrder [issueResp, issueResp]) World.init demoUser 7).2.sent ++ [req] ∧
      req.Method = "PATCH".toList ∧
      req.URL = "https://api.github.com/repos/o/r/issues/7".toList ∧
      req.Body = none :=
  ⟨rfl, _, rfl, rfl, by decide, rfl⟩

/-- C4, amended: when `GetIssue` returns for `i.Number` a remote issue `issue`
(title `issue.Title`) and `json.Marshal` encodes the edit request (the year of
`i.CreatedAt` is in 0..9999), the one request `EditIssue` then sends is a PATCH
to `CreateURL + "repos/" + u.Repo + "/issues/" + i.Number` whose body is the JSON
encoding of `i` with the title replaced by the fetched one: title
`issue.Title`, and number, state and label as supplied in `i`. -/
theorem EditIssue_patch_carries_fetched_title (env : Env) (w w1 : World) (u : UserInfo)
    (i issue : Issue)
    (hget : GetIssue env w u i.Number = ((some issue, none), w1))
    (hnew : env.NewRequest "PATCH".toList
      (CreateURL ++ "repos/".toList ++ u.Repo ++ "/issues/".toList ++ itoa i.Number) = none)
    (hyear : 0 ≤ i.CreatedAt.Year ∧ i.CreatedAt.Year ≤ 9999) :
    ∃ req b, (EditIssue env w u i).2.sent = w1.sent ++ [req] ∧
      req.Method = "PATCH".toList ∧
      req.URL = CreateURL ++ "repos/".toList ++ u.Repo ++ "/issues/".toList ++ itoa i.Number ∧
      req.Body = some b ∧ b = { i with Title := issue.Title } ∧
      b.Title = issue.Title ∧ b.Number = i.Number ∧ b.State = i.State ∧ b.Label = i.Label := by
  have hm : Marshal { i with Title := issue.Title } = some { i with Title := issue.Title } :=
    Marshal_of_year _ hyear
  refine ⟨{ Method := "PATCH".toList,
            URL := CreateURL ++ "repos/".toList ++ u.Repo ++ "/issues/".toList ++ itoa i.Number,
            Authorization := "token ".toList ++ u.Token,
            Body := some { i with Title := issue.Title } },
          { i with Title := issue.Title }, ?_, rfl, rfl, rfl, rfl, rfl, rfl, rfl, rfl⟩
  simp only [EditIssue, hget, httpRequest, hnew, hm]
  cases hdo : env.Do w1.sent
      { Method := "PATCH".toList,
        URL := CreateURL ++ "repos/".toList ++ u.Repo ++ "/issues/".toList ++ itoa i.Number,
        Authorization := "token ".toList ++ u.Token,
        Body := some { i with Title := issue.Title } } with
  | error e => simp
  | ok resp =>
    simp only
    cases verifyResp resp StatusOK <;> simp

/-- Witness of the amended C4: the remote issue is titled "Bug A" and the edit
asks only for number 7 and state "closed". -/
theorem EditIssue_patch_carries_fetched_title_witness :
    ∃ req b,
      (EditIssue (inOrder [issueResp, issueResp]) World.init demoUser
        { Issue.zero with Number := 7, State := "closed".toList }).2.sent
        = (GetIssue (inOrder [issueResp, issueResp]) World.init demoUser 7).2.sent ++ [req] ∧
      req.Method = "PATCH".toList ∧
      req.URL = "https://api.github.com/repos/o/r/issues/7".toList ∧
      req.Body = some b ∧ b.Title = "Bug A".toList ∧ b.Number = 7 ∧
      b.State = "closed".toList ∧ b.Label = [] := by
  obtain ⟨req, b, hsent, hm, hu, hb, -, ht, hn, hs, hl⟩ :=
    EditIssue_patch_carries_fetched_title (inOrder [issueResp, issueResp]) World.init
      (GetIssue (inOrder [issueResp, issueResp]) World.init demoUser 7).2 demoUser
      { Issue.zero with Number := 7, State := "closed".toList } remoteIssue rfl rfl
      (by decide)
  exact ⟨req, b, hsent, hm, by rw [hu]; decide, hb, by rw [ht]; rfl, hn, hs, hl⟩

/-- C6: when the service answers the GET of `GetIssue` with a response `resp`,
`GetIssue` returns an issue with a nil error only if `resp.StatusCode = 200`,
and for any other status it returns no issue and a non-nil error whatever the
body decodes to; and `verifyResp resp expected` is nil exactly when
`resp.StatusCode = expected`. -/
theorem GetIssue_decodes_only_on_200 (env : Env) (w : World) (u : UserInfo) (number : Int)
    (resp : Response)
    (hnew : env.NewRequest "GET".toList
      (CreateURL ++ "repos/".toList ++ u.Repo ++ "/issues/".toList ++ itoa number) = none)
    (hdo : env.Do w.sent
      { Method := "GET".toList,
        URL := CreateURL ++ "repos/".toList ++ u.Repo ++ "/issues/".toList ++ itoa number,
        Authorization := "token ".toList ++ u.Token,
        Body := some { Issue.zero with Number := number } } = .ok resp) :
    (∀ issue, (GetIssue env w u number).1 = (some issue, none) → resp.StatusCode = 200) ∧
    (resp.StatusCode ≠ 200 →
      (GetIssue env w u number).1 =
        (none, some (.errorf ("GET failed: ".toList ++ resp.Status ++ "\n".toList)))) ∧
    (∀ (r : Response) (expected : Int),
      verifyResp r expected = none ↔ r.StatusCode = expected) := by
  have hv : ∀ (r : Response) (expected : Int),
      verifyResp r expected = none ↔ r.StatusCode = expected := by
    intro r expected
    unfold verifyResp
    by_cases h : r.StatusCode = expected <;> simp [h]
  refine ⟨?_, ?_, hv⟩
  · intro issue hret
    by_contra hne
    have hsome : verifyResp resp StatusOK = some resp.Body.asErrorMsg := by
      simp [verifyResp, StatusOK, hne]
    simp only [GetIssue, httpRequest, Marshal_zero_number, hnew, hdo, hsome] at hret
    simp at hret
  · intro hne
    have hsome : verifyResp resp StatusOK = some resp.Body.asErrorMsg := by
      simp [verifyResp, StatusOK, hne]
    simp only [GetIssue, httpRequest, Marshal_zero_number, hnew, hdo, hsome]
    rfl

/-- Witness of C6: a 404 whose body is valid JSON for an issue gives no issue
and the error "GET failed: 404 Not Found". -/
theorem GetIssue_decodes_only_on_200_witness :
    (GetIssue (inOrder [notFoundResp]) World.init demoUser 7).1 =
      (none, some (.errorf "GET failed: 404 Not Found\n".toList)) :=
  (GetIssue_decodes_only_on_200 (inOrder [notFoundResp]) World.init demoUser 7 notFoundResp
    rfl rfl).2.1 (by decide)

/-- C5, the code at the failing input: the POST is answered 201 without a
`Location` header, and `CreateIssue` returns a nil error with an empty list of
locations. -/
theorem CreateIssue_no_location_is_success :
    createdNoLocation.header "Location".toList = [] ∧
    (CreateIssue (inOrder [createdNoLocation]) World.init demoUser (mkIssue 0 "Bug A")).1 =
      .ret ([], none) :=
  ⟨rfl, rfl⟩

/-- C7, the code at the failing input: for repository `o/r` and an empty
filter the query is `repo:o/r` followed by a space, so the first URL requested
ends in `q=repo%3Ao%2Fr+&page=1`, not in `q=repo%3Ao%2Fr&page=1`; for the filter
`open` the query is `repo:o/r is:open`. -/
theorem SearchIssues_first_URL_empty_filter :
    searchQuery demoUser [] = "repo:o/r ".toList ∧
    (∃ out w', SearchIssues (inOrder [pageB]) 1 World.init demoUser [] = some (out, w') ∧
      w'.sent.map (fun r => r.URL) =
        ["https://api.github.com/search/issues?q=repo%3Ao%2Fr+&page=1".toList]) ∧
    IssuesURL ++ "?q=".toList ++ QueryEscape ("repo:".toList ++ demoUser.Repo) ++ "&page=1".toList
      = "https://api.github.com/search/issues?q=repo%3Ao%2Fr&page=1".toList ∧
    searchQuery demoUser "open".toList = "repo:o/r is:open".toList :=
  ⟨by decide, ⟨_, _, rfl, by decide⟩, by decide, by decide⟩

/-- C8, the code at the failing inputs. When every request fails in transport
with an error `e`: `CreateIssue` panics (it reads `resp.Status` of the nil
response); `GetIssue` returns the error "GET failed: " whatever `e` is;
`EditIssue` returns "failed to get issue: N" whatever `e` is; `SearchIssues`
alone returns `e`. When the GET of `EditIssue` succeeds and its PATCH fails in
transport, `EditIssue` panics. -/
theorem transport_failure_outcomes (e : GoError) (w : World) (u : UserInfo) (i : Issue)
    (filter : Str) (fuel : Nat) :
    (CreateIssue (unreachable e) w u i).1 = .panic ∧
    (GetIssue (unreachable e) w u i.Number).1
      = (none, some (.errorf "GET failed: ".toList)) ∧
    (EditIssue (unreachable e) w u i).1
      = .ret (some (.errorf ("failed to get issue: ".toList ++ itoa i.Number))) ∧
    (∃ w', SearchIssues (unreachable e) (fuel + 1) w u filter = some (.ret (none, some e), w')) ∧
    (EditIssue (inOrder [issueResp]) World.init demoUser (mkIssue 7 "")).1 = .panic := by
  refine ⟨rfl, rfl, rfl, ?_, rfl⟩
  simp [SearchIssues, searchLoop, unreachable]

/-- On `threePages` the loop moves from page 1 to page 2. -/
theorem threePages_step1 (token : Str) (fuel : Nat) (sent : List Request)
    (acc : IssuesSearchResult) :
    searchLoop threePages token (fuel + 1) ⟨pageURL "1", sent⟩ acc =
      searchLoop threePages token fuel
        ⟨pageURL "2", sent ++ [⟨"GET".toList, pageURL "1", "token ".toList ++ token, none⟩]⟩
        ⟨5, acc.Items ++ [mkIssue 1 "a", mkIssue 2 "b"]⟩ := by
  rfl

/-- On `threePages` the loop moves from page 2 back to page 1. -/
theorem threePages_step2 (token : Str) (fuel : Nat) (sent : List Request)
    (acc : IssuesSearchResult) :
    searchLoop threePages token (fuel + 1) ⟨pageURL "2", sent⟩ acc =
      searchLoop threePages token fuel
        ⟨pageURL "1", sent ++ [⟨"GET".toList, pageURL "2", "token ".toList ++ token, none⟩]⟩
        ⟨5, acc.Items ++ [mkIssue 3 "c", mkIssue 4 "d"]⟩ := by
  rfl

/-- On `threePages` the loop never ends, whatever the fuel. -/
theorem threePages_loops (token : Str) :
    ∀ (fuel : Nat) (sent : List Request) (acc : IssuesSearchResult),
      searchLoop threePages token fuel ⟨pageURL "1", sent⟩ acc = none ∧
      searchLoop threePages token fuel ⟨pageURL "2", sent⟩ acc = none := by
  intro fuel
  induction fuel with
  | zero => intro sent acc; exact ⟨rfl, rfl⟩
  | succ f ih =>
    intro sent acc
    rw [threePages_step1, threePages_step2]
    exact ⟨(ih _ _).2, (ih _ _).1⟩

/-- C9, the code at the failing input: page 2 of 3 carries the Link header
`<page 1>; rel="prev", <page 3>; rel="next", ...`. The next URL the loop takes
from it is the one of page 1, not the one of page 3, and against the
three-page service `SearchIssues` never returns, whatever the fuel. A header
without a next relation whose URL contains the letters `next` also gives a
further request. -/
theorem SearchIssues_follows_first_link_entry :
    nextIssuesURL (page2of3.header "Link".toList) = pageURL "1" ∧
    pageURL "1" ≠ pageURL "3" ∧
    (∀ fuel, SearchIssues threePages fuel World.init demoUser "open".toList = none) ∧
    nextIssuesURL ["<https://api.github.com/search/issues?q=repo%3Anext%2Fr&page=1>; rel=\"prev\"".toList]
      = "https://api.github.com/search/issues?q=repo%3Anext%2Fr&page=1".toList :=
  ⟨by decide, by decide, fun fuel => (threePages_loops demoUser.Token fuel [] _).1, by decide⟩

/-- C10, the code at the failing input: two calls in a row with the same
credentials and filter against a service that answers by URL, the same way
each time. The first call requests page 1, returns its items and leaves
`IssuesURL` empty; the second call requests the URL `?q=...&page=1` without the
endpoint and returns a transport error. -/
theorem SearchIssues_second_call_differs :
    ∃ w1 w2,
      SearchIssues onePage 1 World.init demoUser "open".toList =
        some (.ret (some ⟨9, [mkIssue 3 "c", mkIssue 4 "d"]⟩, none), w1) ∧
      w1.IssuesURL = [] ∧
      w1.sent.map (fun r => r.URL) = [pageURL "1"] ∧
      SearchIssues onePage 1 w1 demoUser "open".toList =
        some (.ret (none, some (.lib "unsupported protocol scheme".toList)), w2) ∧
      w2.sent.map (fun r => r.URL) =
        [pageURL "1", "?q=repo%3Ao%2Fr+is%3Aopen&page=1".toList] :=
  ⟨_, _, rfl, rfl, by decide, rfl, by decide⟩

end GitIssue
